import Mathlib

/-!
# Verification of `plumbum/localcmd.py` (local command execution engine)

This file gives a shallow embedding, in Lean, of the command-composition and
execution engine of `localcmd.py`: commands, bound commands, pipelines, stream
redirections, the `_run` collection routine, the scoped environment and
working-directory stacks, and the `Future` asynchronous handle.  The Lean
definitions are translated from the Python source; theorems below settle the
specification's claims about them.

Modelling conventions:
* An OS process is modelled by `Proc`, which records the command line, the
  three stream endpoints the process was spawned with, the process's
  externally determined behaviour (`ProcBehavior`: exit code and the bytes it
  writes to stdout/stderr), the `srcproc` annotation used by pipelines, and
  whether the parent has already waited on it (`waited`).
* Spawning needs an oracle `ev : List String → ProcBehavior` assigning a
  behaviour to each command line; this stands for the external world.
* Python file objects / pipe ends are modelled by numeric handles, allocated
  from a counter threaded through `popen` (standing for the OS allocating
  pipe descriptors when `subprocess.PIPE` is requested).
-/

/-- A stream endpoint as passed to `subprocess.Popen`: `PIPE` (capture),
`None` (inherit the parent's stream), or an open file/pipe object. -/
inductive StreamSpec : Type where
  | pipe                -- subprocess.PIPE
  | inherit             -- Python None
  | handle (h : Nat)    -- an open file object or pipe end
deriving DecidableEq, Repr

/-- The externally determined behaviour of one spawned process: its exit code
and the data it writes on stdout and stderr. -/
structure ProcBehavior where
  exitCode : Int
  outData : String
  errData : String
deriving DecidableEq, Repr

/-- A spawned process, as `Command.popen` returns it: the command line
(`proc.cmdline`, set by `Command.popen`), the three stream endpoints it was
spawned with, its behaviour, the optional `srcproc` annotation set by
`Pipeline.popen`, whether the parent has waited on it, and the read end of its
stdout pipe when stdout was `PIPE` (used by `Pipeline.popen` as the
downstream's stdin). -/
inductive Proc : Type where
  | mk (cmdline : List String) (stdinSpec stdoutSpec stderrSpec : StreamSpec)
       (behavior : ProcBehavior) (srcproc : Option Proc) (waited : Bool)
       (stdoutHandle : Option Nat) : Proc

def Proc.cmdline : Proc → List String
  | .mk c _ _ _ _ _ _ _ => c

def Proc.stdinSpec : Proc → StreamSpec
  | .mk _ si _ _ _ _ _ _ => si

def Proc.stdoutSpec : Proc → StreamSpec
  | .mk _ _ so _ _ _ _ _ => so

def Proc.stderrSpec : Proc → StreamSpec
  | .mk _ _ _ se _ _ _ _ => se

def Proc.behavior : Proc → ProcBehavior
  | .mk _ _ _ _ b _ _ _ => b

def Proc.srcproc : Proc → Option Proc
  | .mk _ _ _ _ _ sp _ _ => sp

def Proc.waited : Proc → Bool
  | .mk _ _ _ _ _ _ w _ => w

def Proc.stdoutHandle : Proc → Option Nat
  | .mk _ _ _ _ _ _ _ h => h

/-- The process's exit code as fixed by its behaviour.  In Python,
`proc.returncode` equals this value once the process has been waited on. -/
def Proc.exitCode (p : Proc) : Int := p.behavior.exitCode

/-- Python's `proc.returncode` attribute: `None` until the process has been
waited on, the actual exit code afterwards. -/
def Proc.returncode (p : Proc) : Option Int :=
  if p.waited then some p.exitCode else none

/-- `Pipeline.popen`'s annotation `dstproc.srcproc = srcproc`. -/
def Proc.setSrcproc : Proc → Proc → Proc
  | .mk c si so se b _ w h, sp => .mk c si so se b (some sp) w h

/-- `proc.communicate()`: wait for the process to exit and drain both output
streams.  Returns the process marked as waited, together with the captured
stdout and stderr — each is `none` (Python `None`) when the corresponding
stream was not a `PIPE`, and the process's written data when it was. -/
def communicate (p : Proc) : Proc × Option String × Option String :=
  match p with
  | .mk c si so se b sp _ h =>
    (.mk c si so se b sp true h,
     if so = StreamSpec.pipe then some b.outData else none,
     if se = StreamSpec.pipe then some b.errData else none)

/-- The normalisation `if not stdout: stdout = ""` in `_run`: Python `None`
(stream not captured) and the empty string are both falsy and collapse to
`""`; any other captured text is kept. -/
def pyNormalize : Option String → String
  | none => ""
  | some s => s

/-- The `retcode` argument accepted by `run`: Python `None` (accept any exit
code), an integer, or — as the specification describes — a set of integers,
modelled by a list. -/
inductive RetPolicy : Type where
  | anyCode             -- Python None
  | exact (n : Int)     -- an integer expected code
  | codeSet (s : List Int)  -- a set of integers
deriving DecidableEq, Repr

/-- The guard `retcode is not None and proc.returncode != retcode` of `_run`,
under Python semantics: comparing the integer `proc.returncode` against `None`
is short-circuited away; against an integer it is ordinary inequality; against
a set object, `int != set` is always `True` in Python, whatever the set's
elements, so the guard fires unconditionally. -/
def retMismatch : RetPolicy → Int → Bool
  | .anyCode, _ => false
  | .exact n, r => r != n
  | .codeSet _, _ => true

/-- The `ProcessExecutionError` exception: carries the command line, the
actual exit code, and the captured (normalised) stdout and stderr text. -/
structure ProcessExecutionError where
  cmdline : List String
  retcode : Int
  stdout : String
  stderr : String
deriving DecidableEq, Repr

def isOkB {ε α : Type} : Except ε α → Bool
  | .ok _ => true
  | .error _ => false

/-- `_run(proc, retcode)`: `communicate` (wait and drain), normalise the two
captures to text, then compare the exit code with the expected-code policy —
raise `ProcessExecutionError` on mismatch, return the triple
`(returncode, stdout, stderr)` otherwise.  Since `proc` is mutated in place in
Python, the embedding returns the waited process alongside the outcome. -/
def _run (proc : Proc) (retcode : RetPolicy) :
    Proc × Except ProcessExecutionError (Int × String × String) :=
  match communicate proc with
  | (p, out, err) =>
    let stdout := pyNormalize out
    let stderr := pyNormalize err
    if retMismatch retcode p.exitCode then
      (p, .error ⟨p.cmdline, p.exitCode, stdout, stderr⟩)
    else
      (p, .ok (p.exitCode, stdout, stderr))

/-!
## Composable units

`ChainableCommand` is the common shape of `Command`/`BoundCommand` (an
executable with an argument list — `Command.popen(args)` and
`BoundCommand.popen()` spawn identically), `Pipeline`, and `Redirection`.
In `Redirection`, string endpoints have already been opened by `__init__`
(see `mkRedirection` below), so the stored endpoints are `PIPE` or handles.
-/

inductive ChainableCommand : Type where
  | cmd (executable : String) (args : List String)
  | pipeline (srccmd dstcmd : ChainableCommand)
  | redirection (cmd : ChainableCommand)
      (stdin_file stdout_file stderr_file : StreamSpec)
deriving DecidableEq, Repr

/-- `srcproc.stdout` as passed to the downstream `popen` in `Pipeline.popen`:
the read end of the source's stdout pipe.  When the source was not spawned
with `stdout = PIPE` (impossible for the pipelines built here), Python's
`srcproc.stdout` is `None`, which `Popen` treats as inherit. -/
def srcStdoutSpec (p : Proc) : StreamSpec :=
  match p.stdoutHandle with
  | some h => .handle h
  | none => .inherit

/-- `popen` over the composable-unit AST, with the caller-supplied
`stdin`/`stdout`/`stderr` defaults (each defaulting to `PIPE` in Python) and
the handle-allocation counter.

* `Command`/`BoundCommand.popen`: build the command line
  `[str(executable)] + [str(a) for a in args]` and spawn one process with the
  given endpoints (allocating a stdout pipe handle when stdout is `PIPE`).
* `Pipeline.popen`: spawn the source with the caller's stdin, stdout `PIPE`
  (the default: `Pipeline.popen` does not pass `stdout` to the source) and
  stderr forced to `PIPE`; spawn the destination with `stdin = srcproc.stdout`
  and the caller's stdout/stderr; the parent then closes its copies of
  `srcproc.stdout` and `srcproc.stderr` (not tracked here); return the
  destination process annotated with `dstproc.srcproc = srcproc`.
* `Redirection.popen`: forward to the inner unit, each stream using the
  wrapper's endpoint when it is not `PIPE` and the caller's default when it
  is (`self.stdin_file if self.stdin_file != PIPE else stdin`, etc.). -/
def popen (ev : List String → ProcBehavior) :
    ChainableCommand → StreamSpec → StreamSpec → StreamSpec → Nat → Proc × Nat
  | .cmd exe args, si, so, se, c =>
      let cl := exe :: args
      (.mk cl si so se (ev cl) none false
         (if so = StreamSpec.pipe then some c else none),
       if so = StreamSpec.pipe then c + 1 else c)
  | .pipeline src dst, si, so, se, c =>
      let sr := popen ev src si .pipe .pipe c
      let dr := popen ev dst (srcStdoutSpec sr.1) so se sr.2
      (Proc.setSrcproc dr.1 sr.1, dr.2)
  | .redirection u fi fo fe, si, so, se, c =>
      popen ev u (if fi ≠ StreamSpec.pipe then fi else si)
        (if fo ≠ StreamSpec.pipe then fo else so)
        (if fe ≠ StreamSpec.pipe then fe else se) c

/-- `run` on any composable unit: `popen` with the given defaults, then
`_run` with the expected-code policy. -/
def runUnit (ev : List String → ProcBehavior) (u : ChainableCommand)
    (retcode : RetPolicy) (si so se : StreamSpec) (c : Nat) :
    Proc × Except ProcessExecutionError (Int × String × String) :=
  _run (popen ev u si so se c).1 retcode

/-!
## Future (asynchronous execution)

`Future.__init__` stores the running process and the expected-retcode policy
and initialises the three caches `_returncode`, `_stdout`, `_stderr` to
`None`.  `wait` is a no-op once `ready`; otherwise it runs `_run` and, when
that returns normally, fills all three caches from the returned triple.  If
`_run` raises, the assignment never happens (but the process object has still
been communicated with), and the exception propagates.
-/

structure Future where
  proc : Proc
  expected_retcode : RetPolicy
  cachedReturncode : Option Int    -- self._returncode
  cachedStdout : Option String     -- self._stdout
  cachedStderr : Option String     -- self._stderr

/-- `Future(proc, retcode)`. -/
def Future.init (p : Proc) (retcode : RetPolicy) : Future :=
  ⟨p, retcode, none, none, none⟩

/-- `ready(self)`: `self._returncode is not None`. -/
def Future.ready (f : Future) : Bool := f.cachedReturncode.isSome

/-- `wait(self)`.  The second component is the exception `wait` raises, if
any; the first is the post-call state of the Future. -/
def Future.wait (f : Future) : Future × Option ProcessExecutionError :=
  if f.ready then (f, none)
  else
    match _run f.proc f.expected_retcode with
    | (p, .error e) => ({ f with proc := p }, some e)
    | (p, .ok (rc, so, se)) =>
        ({ f with proc := p, cachedReturncode := some rc,
                  cachedStdout := some so, cachedStderr := some se }, none)

/-- The `stdout` property: `self.wait(); return self._stdout`.  Returns the
post-call state, the value, and the exception `wait` raised, if any (in which
case Python never reaches the `return`). -/
def Future.stdout (f : Future) : Future × Option String × Option ProcessExecutionError :=
  match f.wait with
  | (f2, e) => (f2, f2.cachedStdout, e)

/-- The `stderr` property. -/
def Future.stderr (f : Future) : Future × Option String × Option ProcessExecutionError :=
  match f.wait with
  | (f2, e) => (f2, f2.cachedStderr, e)

/-- The `returncode` property. -/
def Future.returncode (f : Future) : Future × Option Int × Option ProcessExecutionError :=
  match f.wait with
  | (f2, e) => (f2, f2.cachedReturncode, e)

/-!
## Scoped environment stack (`_Env`)

Frames are association lists from variable names to values (Python dict
semantics for lookup/assignment: assignment replaces in place or appends).
`_Env` holds the frame stack (head of the list is the top / active view) and
the derived parsed search-path list `self.path`.  `self["PATH"]` raises
`KeyError` when the top frame has no `PATH`, so the operations that read it
are `Option`-valued.
-/

def lookupVar : List (String × String) → String → Option String
  | [], _ => none
  | (a, b) :: rest, k => if a == k then some b else lookupVar rest k

def setVar : List (String × String) → String → String → List (String × String)
  | [], k, v => [(k, v)]
  | (a, b) :: rest, k, v =>
      if a == k then (k, v) :: rest else (a, b) :: setVar rest k v

/-- `os.path.pathsep` on POSIX. -/
def pathSep : String := ":"

/-- `os.path.pathsep` as a character (it is the single character `:`). -/
def pathSepChar : Char := ':'

/-- Python's `s.split(sep)` for a single-character separator, over the
character list: splitting the empty string yields `[""]`, and every
occurrence of the separator starts a new field. -/
def pySplitAux (sep : Char) : List Char → List String
  | [] => [""]
  | c :: rest =>
      match pySplitAux sep rest with
      | [] => []
      | hd :: tl =>
          if c = sep then "" :: hd :: tl
          else String.mk (c :: hd.toList) :: tl

/-- Python's `s.split(os.path.pathsep)`. -/
def pySplit (sep : Char) (s : String) : List String := pySplitAux sep s.toList

structure EnvState where
  envstack : List (List (String × String))  -- head is the top (active) frame
  path : List String                        -- self.path, parsed entries
deriving DecidableEq, Repr

/-- `_update_path`: re-parse `self.path` from the top frame's `PATH` entry
(`self["PATH"].split(os.path.pathsep)`); `None` models the `KeyError` when
`PATH` is absent. -/
def updatePath (s : EnvState) : Option EnvState :=
  match s.envstack with
  | [] => none
  | top :: _ =>
      (lookupVar top "PATH").map (fun v => { s with path := pySplit pathSepChar v })

/-- `update(**kwargs)`: apply all bindings to the top frame, then
`_update_path`. -/
def envUpdate (kwargs : List (String × String)) (s : EnvState) : Option EnvState :=
  match s.envstack with
  | [] => none
  | top :: rest =>
      updatePath { s with
        envstack := (kwargs.foldl (fun f kv => setVar f kv.1 kv.2) top) :: rest }

/-- Entering an `env(**kwargs)` scope: push a copy of the top frame, then
`update(**kwargs)`. -/
def envEnter (kwargs : List (String × String)) (s : EnvState) : Option EnvState :=
  match s.envstack with
  | [] => none
  | top :: rest => envUpdate kwargs { s with envstack := top :: top :: rest }

/-- Leaving an `env(**kwargs)` scope — the `finally` block, run on normal exit
and on a raised error alike: `self._update_path()` first (note: while the
scope's frame is still the top), then `self._envstack.pop(-1)`. -/
def envExit (s : EnvState) : Option EnvState :=
  (updatePath s).bind (fun s1 =>
    match s1.envstack with
    | [] => none
    | _ :: rest => some { s1 with envstack := rest })

/-- `getdict`: writes the joined `self.path` back into the top frame's `PATH`
entry, then returns a (stringified) copy of the top frame.  Returns the
mutated environment state alongside the dictionary. -/
def getdict (s : EnvState) : Option (EnvState × List (String × String)) :=
  match s.envstack with
  | [] => none
  | top :: rest =>
      let top2 := setVar top "PATH" (String.intercalate pathSep s.path)
      some ({ s with envstack := top2 :: rest }, top2)

/-- The environment handling in `Command.popen` (lines 190–192): an explicit
`env` keyword that is a dict is used as-is; otherwise (the ambient `_Env`
object, the default) the snapshot is taken via `env.getdict()`, which mutates
the active view's `PATH`. -/
def popenEnvSnapshot (override : Option (List (String × String))) (s : EnvState) :
    Option (EnvState × List (String × String)) :=
  match override with
  | some d => some (s, d)
  | none => getdict s

/-!
## Scoped working-directory stack (`_Workdir`)

`chdir(dir)` issues `os.chdir(str(dir))` and overwrites the top stack entry
with `Path(dir)`.  Entering a `cwd(dir)` scope appends a placeholder `None`
entry and then `chdir(dir)`; leaving (the `finally` block, run on normal exit
and on a raised error alike) pops the top entry and `chdir`s to the new top.
Directory values are modelled as strings; the OS-level current directory is
the `oscwd` field.  Stack entries are `Option String` because of the
transient `None` placeholder.
-/

structure WorkdirState where
  oscwd : String
  dirstack : List (Option String)  -- head is the top entry
deriving DecidableEq, Repr

/-- `chdir(dir)`: `os.chdir(str(dir)); self._dirstack[-1] = Path(dir)`.
`None` models the `IndexError` on an empty stack (never reached: the stack
starts non-empty and is never popped below depth 1). -/
def wdChdir (dir : String) (s : WorkdirState) : Option WorkdirState :=
  match s.dirstack with
  | [] => none
  | _ :: rest => some ⟨dir, some dir :: rest⟩

/-- Entering a `cwd(dir)` scope: `self._dirstack.append(None); self.chdir(dir)`. -/
def wdEnter (dir : String) (s : WorkdirState) : Option WorkdirState :=
  wdChdir dir { s with dirstack := none :: s.dirstack }

/-- Leaving a `cwd(dir)` scope (the `finally` block):
`self._dirstack.pop(-1); self.chdir(self._dirstack[-1])`.  The new top is a
directory value (`some`) whenever the scope was entered through `wdEnter`,
since `chdir` immediately replaced the `None` placeholder. -/
def wdExit (s : WorkdirState) : Option WorkdirState :=
  match s.dirstack with
  | [] => none
  | _ :: rest =>
    match rest with
    | [] => none
    | top :: _ =>
      match top with
      | none => none
      | some d => wdChdir d { s with dirstack := rest }

/-!
## Named-file redirection endpoints (`Redirection.__init__`)

`Redirection.__init__` receives, for each stream, either `PIPE`, an already
open file object, or a filesystem path string.  A string stdin endpoint is
opened with `open(name, "r")` — raising an `IOError` when the file is missing
or unreadable — and string stdout/stderr endpoints with `open(name, "w")`,
which creates the file or truncates it to empty.  The filesystem is modelled
as a list of files (name, content, readable flag) plus a handle counter.
-/

inductive AccessFailure : Type where
  | missing       -- the named file does not exist
  | unreadable    -- the named file exists but cannot be read
deriving DecidableEq, Repr

/-- The `IOError` raised by `open` on a bad named-file redirection (the
specification's `StreamAccessError` kind). -/
structure StreamAccessError where
  filename : String
  failure : AccessFailure
deriving DecidableEq, Repr

structure FileEntry where
  name : String
  content : String
  readable : Bool
deriving DecidableEq, Repr

structure FileSys where
  entries : List FileEntry
  nextHandle : Nat
deriving DecidableEq, Repr

def findFile (fs : FileSys) (n : String) : Option FileEntry :=
  fs.entries.find? (fun e => e.name == n)

/-- `open(n, "r")`: fails when the file is missing or unreadable, otherwise
yields a fresh handle on it. -/
def openForRead (fs : FileSys) (n : String) :
    Except StreamAccessError (FileSys × Nat) :=
  match findFile fs n with
  | none => .error ⟨n, .missing⟩
  | some e =>
      if e.readable then
        .ok ({ fs with nextHandle := fs.nextHandle + 1 }, fs.nextHandle)
      else .error ⟨n, .unreadable⟩

/-- `open(n, "w")`: creates the file (readable, empty) if missing, truncates
its content to empty otherwise, and yields a fresh handle on it. -/
def openForWrite (fs : FileSys) (n : String) : FileSys × Nat :=
  let entries :=
    if (findFile fs n).isSome then
      fs.entries.map (fun e => if e.name == n then { e with content := "" } else e)
    else fs.entries ++ [⟨n, "", true⟩]
  (⟨entries, fs.nextHandle + 1⟩, fs.nextHandle)

/-- An endpoint argument as passed to `Redirection.__init__`: `PIPE`, an open
file object, or a path string. -/
inductive RedirEndpointArg : Type where
  | pipe
  | handle (h : Nat)
  | pathStr (s : String)
deriving DecidableEq, Repr

/-- `open(x, "r") if isinstance(x, str) else x` for the stdin endpoint. -/
def openInputArg (fs : FileSys) :
    RedirEndpointArg → Except StreamAccessError (FileSys × StreamSpec)
  | .pipe => .ok (fs, .pipe)
  | .handle h => .ok (fs, .handle h)
  | .pathStr n =>
      match openForRead fs n with
      | .error e => .error e
      | .ok (fs2, h) => .ok (fs2, .handle h)

/-- `open(x, "w") if isinstance(x, str) else x` for the stdout/stderr
endpoints. -/
def openOutputArg (fs : FileSys) : RedirEndpointArg → FileSys × StreamSpec
  | .pipe => (fs, .pipe)
  | .handle h => (fs, .handle h)
  | .pathStr n =>
      match openForWrite fs n with
      | (fs2, h) => (fs2, .handle h)

/-- `Redirection.__init__(cmd, stdin_file, stdout_file, stderr_file)`: opens
string endpoints in source order (stdin first, then stdout, then stderr) and
stores the resulting endpoints in the wrapper. -/
def mkRedirection (fs : FileSys) (u : ChainableCommand)
    (si so se : RedirEndpointArg) :
    Except StreamAccessError (FileSys × ChainableCommand) :=
  match openInputArg fs si with
  | .error e => .error e
  | .ok (fs1, fi) =>
    match openOutputArg fs1 so with
    | (fs2, fo) =>
      match openOutputArg fs2 se with
      | (fs3, fe) => .ok (fs3, .redirection u fi fo fe)

/-!
## Redirection chains (for the stream-resolution claim)

`wrapRedirections ws u` wraps `u` in the redirection wrappers `ws`, the head
of `ws` being the outermost wrapper.  `innermostWins caller ws` is the
resolution rule as the specification words it — the innermost wrapper's
endpoint wins unless it is pass-through (`PIPE`), in which case resolution
continues outward, falling back on the caller-supplied default — written as a
fold from the outermost wrapper inward.
-/

def wrapRedirections :
    List (StreamSpec × StreamSpec × StreamSpec) → ChainableCommand → ChainableCommand
  | [], u => u
  | w :: rest, u => .redirection (wrapRedirections rest u) w.1 w.2.1 w.2.2

def innermostWins (caller : StreamSpec) (ws : List StreamSpec) : StreamSpec :=
  ws.foldl (fun acc w => if w ≠ StreamSpec.pipe then w else acc) caller

/-!
## Basic lemmas about the embedded operations
-/

theorem communicate_waited (p : Proc) : ((communicate p).1).waited = true := by
  cases p; rfl

theorem communicate_cmdline (p : Proc) : ((communicate p).1).cmdline = p.cmdline := by
  cases p; rfl

theorem communicate_behavior (p : Proc) : ((communicate p).1).behavior = p.behavior := by
  cases p; rfl

theorem communicate_exitCode (p : Proc) : ((communicate p).1).exitCode = p.exitCode := by
  cases p; rfl

theorem communicate_srcproc (p : Proc) : ((communicate p).1).srcproc = p.srcproc := by
  cases p; rfl

theorem setSrcproc_srcproc (p q : Proc) : (Proc.setSrcproc p q).srcproc = some q := by
  cases p; rfl

theorem setSrcproc_waited (p q : Proc) : (Proc.setSrcproc p q).waited = p.waited := by
  cases p; rfl

theorem run_fst (p : Proc) (pol : RetPolicy) : (_run p pol).1 = (communicate p).1 := by
  cases p
  simp only [_run, communicate]
  split <;> rfl

theorem run_error_mismatch (p : Proc) (pol : RetPolicy) (e : ProcessExecutionError)
    (h : (_run p pol).2 = .error e) : retMismatch pol p.exitCode = true := by
  cases p
  simp only [_run, communicate] at h
  split at h
  · assumption
  · exact absurd h (by simp)

theorem run_waited (p : Proc) (pol : RetPolicy) : ((_run p pol).1).waited = true := by
  rw [run_fst]; exact communicate_waited p

theorem popen_waited (ev : List String → ProcBehavior) (u : ChainableCommand) :
    ∀ si so se c, ((popen ev u si so se c).1).waited = false := by
  induction u with
  | cmd exe args => intro si so se c; rfl
  | pipeline src dst ihs ihd =>
      intro si so se c
      simp only [popen]
      rw [setSrcproc_waited]
      exact ihd _ _ _ _
  | redirection u fi fo fe ih =>
      intro si so se c
      simp only [popen]
      exact ih _ _ _ _

theorem lookupVar_setVar_self (f : List (String × String)) (k v : String) :
    lookupVar (setVar f k v) k = some v := by
  induction f with
  | nil => simp [setVar, lookupVar]
  | cons kv rest ih =>
      obtain ⟨a, b⟩ := kv
      by_cases h : a = k
      · subst h; simp [setVar, lookupVar]
      · simpa [setVar, lookupVar, h] using ih

theorem lookupVar_setVar_other (f : List (String × String)) (k v k2 : String)
    (h : k2 ≠ k) : lookupVar (setVar f k v) k2 = lookupVar f k2 := by
  induction f with
  | nil => simp [setVar, lookupVar, Ne.symm h]
  | cons kv rest ih =>
      obtain ⟨a, b⟩ := kv
      by_cases hk : a = k
      · subst hk; simp [setVar, lookupVar, Ne.symm h]
      · by_cases h2 : a = k2
        · subst h2; simp [setVar, lookupVar, hk]
        · simpa [setVar, lookupVar, hk, h2] using ih

/-!
## Claim theorems
-/

/-- A process that exits with code 1 and writes nothing, spawned with all
three streams captured. -/
def procExit1 : Proc :=
  .mk ["prog"] .pipe .pipe .pipe ⟨1, "", ""⟩ none false none

/-- C2 counterexample: the process exits with code 1, which is a member of
the set policy `{1}`, yet `run` raises `ProcessExecutionError` — because
`proc.returncode != retcode` compares an integer against a set, which is
always unequal in Python.  This refutes "with a set, run returns normally
whenever the process's actual exit code is a member of the set". -/
theorem run_codeSet_rejects_member :
    ((1 : Int) ∈ [(1 : Int)]) ∧
      (_run procExit1 (.codeSet [1])).2 = .error ⟨["prog"], 1, "", ""⟩ :=
  ⟨by decide, rfl⟩

/-- C2 (amended): `run`'s expected-exit-code policy accepts every exit code
under `None`; under an integer policy it returns normally exactly when the
actual exit code equals the expected one; under a set-valued policy it always
raises `ProcessExecutionError`, whatever the set's elements and the actual
exit code, since Python's `proc.returncode != retcode` is always true when
`retcode` is a set. -/
theorem run_retcode_policy (p : Proc) (n : Int) (s : List Int) :
    isOkB (_run p .anyCode).2 = true ∧
    isOkB (_run p (.exact n)).2 = (p.exitCode == n) ∧
    isOkB (_run p (.codeSet s)).2 = false := by
  cases p with
  | mk c si so se b sp w h =>
    refine ⟨?_, ?_, ?_⟩ <;>
      simp only [_run, communicate, retMismatch, Proc.exitCode, Proc.behavior]
    · rfl
    · by_cases hb : b.exitCode = n
      · simp [hb, isOkB]
      · simp [hb, isOkB, bne]
    · rfl

/-- C4: `_run` raises only on a drained, exited process — the returned handle
is waited — and the raised `ProcessExecutionError` carries the full command
line, the actual exit code and the two captured texts, where a stream that
was not captured (or captured nothing) contributes the empty string, never a
missing value; on a policy match it returns the triple
`(exit code, stdout text, stderr text)` with the same normalisation. -/
theorem run_drains_and_reports (p : Proc) (pol : RetPolicy) :
    ((_run p pol).1).waited = true ∧
    (retMismatch pol p.exitCode = true →
      (_run p pol).2 = .error ⟨p.cmdline, p.exitCode,
        pyNormalize (communicate p).2.1, pyNormalize (communicate p).2.2⟩) ∧
    (retMismatch pol p.exitCode = false →
      (_run p pol).2 = .ok (p.exitCode,
        pyNormalize (communicate p).2.1, pyNormalize (communicate p).2.2)) ∧
    (p.stdoutSpec ≠ StreamSpec.pipe → pyNormalize (communicate p).2.1 = "") ∧
    (p.stderrSpec ≠ StreamSpec.pipe → pyNormalize (communicate p).2.2 = "") ∧
    (p.behavior.outData = "" → pyNormalize (communicate p).2.1 = "") ∧
    (p.behavior.errData = "" → pyNormalize (communicate p).2.2 = "") := by
  cases p with
  | mk c si so se b sp w h =>
    refine ⟨run_waited _ _, ?_, ?_, ?_, ?_, ?_, ?_⟩
    · intro hm
      simp only [_run, communicate, Proc.exitCode, Proc.behavior, Proc.cmdline] at hm ⊢
      simp [hm]
    · intro hm
      simp only [_run, communicate, Proc.exitCode, Proc.behavior, Proc.cmdline] at hm ⊢
      simp [hm]
    · intro hs
      simp only [Proc.stdoutSpec] at hs
      simp [communicate, hs, pyNormalize]
    · intro hs
      simp only [Proc.stderrSpec] at hs
      simp [communicate, hs, pyNormalize]
    · intro hd
      simp only [Proc.behavior] at hd
      by_cases hso : so = StreamSpec.pipe <;> simp [communicate, hso, hd, pyNormalize]
    · intro hd
      simp only [Proc.behavior] at hd
      by_cases hse : se = StreamSpec.pipe <;> simp [communicate, hse, hd, pyNormalize]

/-- A process exiting 1 with no captured streams, as spawned by the
foreground modifier (`stdin`/`stdout`/`stderr` inherited). -/
def procExit1Inherit : Proc :=
  .mk ["x"] .inherit .inherit .inherit ⟨1, "zzz", "www"⟩ none false none

/-- Witness for `run_drains_and_reports` at a concrete mismatching process
with no captured streams: the raised error is exactly
`ProcessExecutionError(["x"], 1, "", "")`, with empty strings (not missing
values) for the uncaptured streams. -/
theorem run_drains_and_reports_witness :
    (_run procExit1Inherit (.exact 0)).2 = .error ⟨["x"], 1, "", ""⟩ ∧
      ((_run procExit1Inherit (.exact 0)).1).waited = true :=
  ⟨(run_drains_and_reports procExit1Inherit (.exact 0)).2.1 rfl,
   (run_drains_and_reports procExit1Inherit (.exact 0)).1⟩

/-- A behaviour oracle for examples: every process exits 0 and writes
nothing. -/
def evZero : List String → ProcBehavior := fun _ => ⟨0, "", ""⟩

/-- The two-stage pipeline `a | b`. -/
def pipeAB : ChainableCommand := .pipeline (.cmd "a" []) (.cmd "b" [])

/-- The handle `Pipeline.popen` returns for `a | b` with default (`PIPE`)
streams. -/
def c1Dst : Proc := (popen evZero pipeAB .pipe .pipe .pipe 0).1

/-- The pipeline handle after `run` (which calls `_run` on it). -/
def c1After : Proc := (_run c1Dst .anyCode).1

/-- C1 counterexample: running the concrete pipeline `a | b` returns normally,
and the returned handle does record the source's handle — but the recorded
source handle has `returncode = None`: `_run` only calls
`communicate` on the destination, so the source process is never waited on
and its exit code is *not* available after `run` returns, contrary to the
claim. -/
theorem pipeline_run_source_uncollected :
    isOkB (_run c1Dst .anyCode).2 = true ∧
      (c1After.srcproc).isSome = true ∧
      (c1After.srcproc).map Proc.returncode = some none :=
  ⟨rfl, rfl, rfl⟩

/-- C1 (amended): spawning a pipeline returns the destination's handle
annotated with a reference to the source's handle, and that annotation
survives `run`; but `run` (`_run`, also used by a Future's `wait`) waits on
and collects only the destination process — after it returns, the returned
handle is waited while the recorded source handle is still the un-waited
source process, so the source's exit code has not been collected. -/
theorem pipeline_run_collects_only_destination
    (ev : List String → ProcBehavior) (src dst : ChainableCommand)
    (si so se : StreamSpec) (c : Nat) (pol : RetPolicy) :
    ((popen ev (.pipeline src dst) si so se c).1).srcproc
        = some (popen ev src si .pipe .pipe c).1 ∧
    ((_run (popen ev (.pipeline src dst) si so se c).1 pol).1).waited = true ∧
    ((_run (popen ev (.pipeline src dst) si so se c).1 pol).1).srcproc
        = some (popen ev src si .pipe .pipe c).1 ∧
    ((popen ev src si .pipe .pipe c).1).waited = false := by
  refine ⟨?_, run_waited _ _, ?_, popen_waited ev src _ _ _ _⟩
  · simp only [popen]
    exact setSrcproc_srcproc _ _
  · rw [run_fst, communicate_srcproc]
    simp only [popen]
    exact setSrcproc_srcproc _ _

/-- C6: spawning a redirection-wrapped command spawns the underlying process
with, for each of the three streams, the endpoint resolved innermost-first:
the innermost wrapper holding a concrete (non-`PIPE`) endpoint for that
stream wins; a wrapper holding pass-through (`PIPE`) defers outward; when
every wrapper passes through, the caller-supplied default applies.  `ws`
lists the wrappers outermost-first as `(stdin, stdout, stderr)` triples. -/
theorem redirection_stream_resolution
    (ev : List String → ProcBehavior)
    (ws : List (StreamSpec × StreamSpec × StreamSpec))
    (exe : String) (args : List String) (si so se : StreamSpec) (c : Nat) :
    ((popen ev (wrapRedirections ws (.cmd exe args)) si so se c).1).stdinSpec
        = innermostWins si (ws.map (fun w => w.1)) ∧
    ((popen ev (wrapRedirections ws (.cmd exe args)) si so se c).1).stdoutSpec
        = innermostWins so (ws.map (fun w => w.2.1)) ∧
    ((popen ev (wrapRedirections ws (.cmd exe args)) si so se c).1).stderrSpec
        = innermostWins se (ws.map (fun w => w.2.2)) ∧
    ((popen ev (wrapRedirections ws (.cmd exe args)) si so se c).1).cmdline
        = exe :: args := by
  induction ws generalizing si so se c with
  | nil => exact ⟨rfl, rfl, rfl, rfl⟩
  | cons w rest ih =>
      simp only [wrapRedirections, popen, List.map_cons, innermostWins, List.foldl_cons]
      exact ih _ _ _ _

/-- An environment whose only variable is `PATH=/usr/bin`, with the derived
search-path list in sync. -/
def envS0 : EnvState := ⟨[[("PATH", "/usr/bin")]], ["/usr/bin"]⟩

/-- C3 (code bug): entering an `env(PATH = "/override")` scope and leaving it
again restores the previous frame as the active view (variable-for-variable:
the stack is exactly the original one) — but the derived search-path list is
*not* re-synced to the restored frame's `PATH`: the `finally` block calls
`_update_path()` *before* popping, while the override frame is still the top,
so after the pop `self.path` still holds `["/override"]` instead of the
restored `["/usr/bin"]`. -/
theorem env_scope_stale_path_after_pop :
    ((envEnter [("PATH", "/override")] envS0).bind envExit).map EnvState.envstack
        = some [[("PATH", "/usr/bin")]] ∧
    ((envEnter [("PATH", "/override")] envS0).bind envExit).map EnvState.path
        = some ["/override"] ∧
    ["/override"] ≠ ["/usr/bin"] :=
  ⟨rfl, rfl, by decide⟩

/-- C7: for the working-directory stack, after entering a `cwd(dir)` scope the
OS-level current directory is `dir` and equals the top of the directory
stack; and after leaving a scope (the `finally` block runs on normal exit and
on a raised error alike) the OS-level current directory again equals the top
of the stack. -/
theorem workdir_top_is_oscwd (d : String) (s : WorkdirState) :
    (∀ s1, wdEnter d s = some s1 →
        s1.dirstack.head? = some (some s1.oscwd) ∧ s1.oscwd = d) ∧
    (∀ s2, wdExit s = some s2 → s2.dirstack.head? = some (some s2.oscwd)) := by
  constructor
  · intro s1 h1
    simp only [wdEnter, wdChdir] at h1
    obtain rfl := Option.some.inj h1
    exact ⟨rfl, rfl⟩
  · intro s2 h2
    obtain ⟨w0, stack⟩ := s
    rcases stack with _ | ⟨a, rest⟩
    · simp [wdExit] at h2
    · rcases rest with _ | ⟨top, rest2⟩
      · simp [wdExit] at h2
      · rcases top with _ | dd
        · simp [wdExit] at h2
        · simp only [wdExit, wdChdir] at h2
          obtain rfl := Option.some.inj h2
          rfl

/-- Witness for `workdir_top_is_oscwd`: entering `cwd("/tmp")` from `/` and
then leaving again, checking the invariant at both concrete states. -/
theorem workdir_top_is_oscwd_witness :
    ((⟨"/tmp", [some "/tmp", some "/"]⟩ : WorkdirState).dirstack.head?
        = some (some "/tmp")) ∧
    ((⟨"/", [some "/"]⟩ : WorkdirState).dirstack.head? = some (some "/")) :=
  ⟨((workdir_top_is_oscwd "/tmp" ⟨"/", [some "/"]⟩).1
      ⟨"/tmp", [some "/tmp", some "/"]⟩ rfl).1,
   (workdir_top_is_oscwd "/" ⟨"/tmp", [some "/tmp", some "/"]⟩).2
      ⟨"/", [some "/"]⟩ rfl⟩

/-- C9: `getdict()` — called by `Command.popen` whenever the `env` argument
is not an explicit dict, i.e. on every spawn that uses the ambient
environment — writes the joined derived search-path list back into the active
top frame's `PATH` entry as a side effect: in the post-state the top frame's
`PATH` is the `pathsep`-join of `self.path` (every other variable unchanged,
the rest of the stack untouched), and the returned snapshot dict is that
mutated top frame. -/
theorem getdict_writes_back (s : EnvState) (top : List (String × String))
    (rest : List (List (String × String))) (h : s.envstack = top :: rest) :
    ∃ s2 d, getdict s = some (s2, d) ∧
      popenEnvSnapshot none s = some (s2, d) ∧
      lookupVar d "PATH" = some (String.intercalate pathSep s.path) ∧
      s2.envstack = d :: rest ∧ s2.path = s.path ∧
      (∀ k, k ≠ "PATH" → lookupVar d k = lookupVar top k) := by
  obtain ⟨stack, path⟩ := s
  simp only at h
  subst h
  exact ⟨_, _, rfl, rfl, lookupVar_setVar_self _ _ _, rfl, rfl,
    fun k hk => lookupVar_setVar_other _ _ _ _ hk⟩

/-- Witness for `getdict_writes_back`: an environment whose active `PATH`
entry reads `/usr/bin` but whose derived list is `["/a", "/b"]` — taking the
snapshot rewrites the active view's `PATH` to `/a:/b`. -/
theorem getdict_writes_back_witness :
    (getdict ⟨[[("PATH", "/usr/bin")]], ["/a", "/b"]⟩).map
        (fun r => lookupVar r.2 "PATH") = some (some "/a:/b") := by
  obtain ⟨s2, d, hg, _, hp, _, _, _⟩ :=
    getdict_writes_back ⟨[[("PATH", "/usr/bin")]], ["/a", "/b"]⟩
      [("PATH", "/usr/bin")] [] rfl
  rw [hg]
  simpa using hp

theorem run_ok_nomismatch (p : Proc) (pol : RetPolicy) (t : Int × String × String)
    (h : (_run p pol).2 = .ok t) : retMismatch pol p.exitCode = false := by
  cases p
  simp only [_run, communicate] at h
  split at h
  · exact absurd h (by simp)
  · rename_i hcond
    simpa using hcond

/-- C5: once a `wait()` has returned normally, the Future is resolved:
`ready()` reports `true`, a second `wait()` is a no-op that changes nothing
and raises nothing, and the `stdout`, `stderr` and `returncode` accessors —
in any order, since none of them changes the state — return the cached
values without collecting the process again; and a freshly created Future is
not yet resolved (`ready()` is a mere field test, hence non-blocking). -/
theorem future_wait_idempotent (f f2 : Future) (h : Future.wait f = (f2, none)) :
    Future.wait f2 = (f2, none) ∧ Future.ready f2 = true ∧
    Future.stdout f2 = (f2, f2.cachedStdout, none) ∧
    Future.stderr f2 = (f2, f2.cachedStderr, none) ∧
    Future.returncode f2 = (f2, f2.cachedReturncode, none) ∧
    (∀ (p : Proc) (pol : RetPolicy), Future.ready (Future.init p pol) = false) := by
  have hr2 : Future.ready f2 = true := by
    unfold Future.wait at h
    by_cases hr : Future.ready f = true
    · rw [if_pos hr] at h
      have hf : f = f2 := congrArg Prod.fst h
      rw [← hf]
      exact hr
    · rw [if_neg hr] at h
      rcases hrun : _run f.proc f.expected_retcode with ⟨p, r⟩
      rw [hrun] at h
      cases r with
      | error e => exact absurd (congrArg Prod.snd h) (by simp)
      | ok t =>
          obtain ⟨rc, so, se⟩ := t
          have hf : _ = f2 := congrArg Prod.fst h
          rw [← hf]
          rfl
  have hw2 : Future.wait f2 = (f2, none) := by
    unfold Future.wait
    rw [if_pos hr2]
  refine ⟨hw2, hr2, ?_, ?_, ?_, fun p pol => rfl⟩
  · unfold Future.stdout
    rw [hw2]
  · unfold Future.stderr
    rw [hw2]
  · unfold Future.returncode
    rw [hw2]

/-- A Future over a successfully exiting process, before collection. -/
def futDemo : Future :=
  Future.init (.mk ["w"] .pipe .pipe .pipe ⟨0, "o", "e"⟩ none false none) .anyCode

/-- `futDemo` after its first (successful) `wait()`. -/
def futDemoResolved : Future :=
  ⟨.mk ["w"] .pipe .pipe .pipe ⟨0, "o", "e"⟩ none true none, .anyCode,
   some 0, some "o", some "e"⟩

/-- Witness for `future_wait_idempotent`, at a concrete resolved Future. -/
theorem future_wait_idempotent_witness :
    Future.wait futDemoResolved = (futDemoResolved, none) ∧
      Future.ready futDemoResolved = true ∧
      Future.stdout futDemoResolved = (futDemoResolved, some "o", none) :=
  ⟨(future_wait_idempotent futDemo futDemoResolved rfl).1,
   (future_wait_idempotent futDemo futDemoResolved rfl).2.1,
   (future_wait_idempotent futDemo futDemoResolved rfl).2.2.1⟩

/-- C10: if `wait()` raises `ProcessExecutionError` (the exit code failed the
expected-code policy), the tuple assignment never runs: no cache field is
updated (`_returncode` in particular stays `None`), `ready()` still reports
`false`, and the process object — although already drained by the failed
`communicate` — is collected again by the next `wait()` (or any accessor),
which raises again instead of ever reaching the resolved state. -/
theorem future_failed_wait_not_cached (f f2 : Future) (e : ProcessExecutionError)
    (h : Future.wait f = (f2, some e)) :
    f2.cachedReturncode = none ∧ f2.cachedStdout = f.cachedStdout ∧
    f2.cachedStderr = f.cachedStderr ∧ Future.ready f2 = false ∧
    (f2.proc).waited = true ∧
    (∃ f3 e2, Future.wait f2 = (f3, some e2) ∧ Future.ready f3 = false ∧
       f3.cachedReturncode = none) := by
  obtain ⟨fp, fpol, frc, fso, fse⟩ := f
  unfold Future.wait at h
  by_cases hr : Future.ready ⟨fp, fpol, frc, fso, fse⟩ = true
  · rw [if_pos hr] at h
    exact absurd (congrArg Prod.snd h) (by simp)
  · rw [if_neg hr] at h
    have hrc : frc = none := by
      cases hcr : frc
      · rfl
      · exact absurd (by simp [Future.ready, hcr]) hr
    subst hrc
    rcases hrun : _run fp fpol with ⟨p, r⟩
    rw [hrun] at h
    cases r with
    | ok t =>
        obtain ⟨rc, so, se⟩ := t
        exact absurd (congrArg Prod.snd h) (by simp)
    | error e1 =>
        have hf2 : (⟨p, fpol, none, fso, fse⟩ : Future) = f2 := congrArg Prod.fst h
        have hp1 : (_run fp fpol).1 = p := congrArg Prod.fst hrun
        have hpw : p.waited = true := by
          rw [← hp1]
          exact run_waited _ _
        have hpe : p.exitCode = fp.exitCode := by
          rw [← hp1, run_fst]
          exact communicate_exitCode _
        have hm : retMismatch fpol fp.exitCode = true :=
          run_error_mismatch fp fpol e1 (by rw [hrun])
        subst hf2
        rcases hrun2 : _run p fpol with ⟨p2, r2⟩
        cases r2 with
        | ok t2 =>
            have hok : retMismatch fpol p.exitCode = false :=
              run_ok_nomismatch p fpol t2 (by rw [hrun2])
            rw [hpe, hm] at hok
            exact absurd hok (by simp)
        | error e2 =>
            refine ⟨rfl, rfl, rfl, rfl, hpw,
              ⟨⟨p2, fpol, none, fso, fse⟩, e2, ?_, rfl, rfl⟩⟩
            unfold Future.wait
            rw [if_neg (by simp [Future.ready])]
            rw [hrun2]

/-- A Future over a process that exits 1, under the default expect-0 policy. -/
def futBad : Future :=
  Future.init (.mk ["y"] .pipe .pipe .pipe ⟨1, "", ""⟩ none false none) (.exact 0)

/-- `futBad` after its first `wait()`, which raises: only the process object
has changed (it is now drained); every cache field is still `None`. -/
def futBadAfter : Future :=
  ⟨.mk ["y"] .pipe .pipe .pipe ⟨1, "", ""⟩ none true none, .exact 0,
   none, none, none⟩

/-- Witness for `future_failed_wait_not_cached` at a concrete Future whose
process exits 1 under the expect-0 policy. -/
theorem future_failed_wait_not_cached_witness :
    Future.ready futBadAfter = false ∧ futBadAfter.cachedReturncode = none ∧
      (∃ f3 e2, Future.wait futBadAfter = (f3, some e2) ∧
        Future.ready f3 = false ∧ f3.cachedReturncode = none) :=
  have h := future_failed_wait_not_cached futBad futBadAfter ⟨["y"], 1, "", ""⟩ rfl
  ⟨h.2.2.2.1, h.1, h.2.2.2.2.2⟩

theorem find_content_map (m : String) (l : List FileEntry)
    (hsome : (l.find? (fun e => e.name == m)).isSome = true) :
    ((l.map (fun e => if e.name == m then { e with content := "" } else e)).find?
        (fun e => e.name == m)).map FileEntry.content = some "" := by
  induction l with
  | nil => simp [List.find?] at hsome
  | cons a rest ih =>
      by_cases ha : a.name = m
      · rw [List.map_cons, List.find?_cons_of_pos _ (by simp [ha])]
        simp [ha]
      · rw [List.map_cons, List.find?_cons_of_neg _ (by simp [ha])]
        apply ih
        rw [List.find?_cons_of_neg _ (by simp [ha])] at hsome
        exact hsome

theorem find_content_append (m : String) (l : List FileEntry)
    (hnone : l.find? (fun e => e.name == m) = none) :
    ((l ++ [({ name := m, content := "", readable := true } : FileEntry)]).find?
        (fun e => e.name == m)).map FileEntry.content = some "" := by
  induction l with
  | nil => simp [List.find?]
  | cons a rest ih =>
      by_cases ha : a.name = m
      · rw [List.find?_cons_of_pos _ (by simp [ha])] at hnone
        exact absurd hnone (by simp)
      · rw [List.cons_append, List.find?_cons_of_neg _ (by simp [ha])]
        apply ih
        rw [List.find?_cons_of_neg _ (by simp [ha])] at hnone
        exact hnone

/-- `open(m, "w")` creates or truncates: in the resulting filesystem the file
`m` exists with empty content. -/
theorem findFile_openForWrite (fs : FileSys) (m : String) :
    (findFile (openForWrite fs m).1 m).map FileEntry.content = some "" := by
  unfold openForWrite findFile
  by_cases hm : (List.find? (fun e => e.name == m) fs.entries).isSome = true
  · rw [if_pos (by simpa [findFile] using hm)]
    exact find_content_map m fs.entries hm
  · rw [if_neg (by simpa [findFile] using hm)]
    exact find_content_append m fs.entries (Option.not_isSome_iff_eq_none.mp hm)

/-- C8: constructing a redirection whose stdin endpoint is a path string
fails with a stream-access error when the named file is missing
(`AccessFailure.missing`) or unreadable (`AccessFailure.unreadable`), before
any output endpoint is opened; a path string given as the stdout or the
stderr endpoint is opened for writing, which creates the file or truncates it
to empty content. -/
theorem redirection_named_file_endpoints (fs : FileSys) (u : ChainableCommand)
    (n m : String) (so se : RedirEndpointArg) :
    (findFile fs n = none →
      mkRedirection fs u (.pathStr n) so se = .error ⟨n, .missing⟩) ∧
    (∀ fe, findFile fs n = some fe → fe.readable = false →
      mkRedirection fs u (.pathStr n) so se = .error ⟨n, .unreadable⟩) ∧
    (∃ fs3 r, mkRedirection fs u .pipe (.pathStr m) .pipe = .ok (fs3, r) ∧
      (findFile fs3 m).map FileEntry.content = some "") ∧
    (∃ fs3 r, mkRedirection fs u .pipe .pipe (.pathStr m) = .ok (fs3, r) ∧
      (findFile fs3 m).map FileEntry.content = some "") := by
  refine ⟨?_, ?_, ?_, ?_⟩
  · intro hn
    simp only [mkRedirection, openInputArg, openForRead, hn]
  · intro fe hn hr
    simp only [mkRedirection, openInputArg, openForRead, hn, hr]
    simp
  · exact ⟨_, _, rfl, findFile_openForWrite fs m⟩
  · exact ⟨_, _, rfl, findFile_openForWrite fs m⟩

/-- A small filesystem: a readable input file and an unreadable one. -/
def fsDemo : FileSys :=
  ⟨[⟨"in.txt", "data", true⟩, ⟨"locked.txt", "x", false⟩], 0⟩

/-- Witness for `redirection_named_file_endpoints`: redirecting stdin from a
missing file and from an unreadable file each fails with the corresponding
stream-access error. -/
theorem redirection_named_file_endpoints_witness :
    mkRedirection fsDemo (.cmd "c" []) (.pathStr "ghost.txt") .pipe .pipe
        = .error ⟨"ghost.txt", .missing⟩ ∧
    mkRedirection fsDemo (.cmd "c" []) (.pathStr "locked.txt") .pipe .pipe
        = .error ⟨"locked.txt", .unreadable⟩ :=
  have h1 := redirection_named_file_endpoints fsDemo (.cmd "c" [])
    "ghost.txt" "out.txt" .pipe .pipe
  have h2 := redirection_named_file_endpoints fsDemo (.cmd "c" [])
    "locked.txt" "out.txt" .pipe .pipe
  ⟨h1.1 rfl, h2.2.1 ⟨"locked.txt", "x", false⟩ rfl rfl⟩
